import Mathlib

/-!
Shallow embedding of the `rline` crate (src/lib.rs): a session-multiplexing
layer over libreadline's process-global editing state.

The crate's own code (activation, guard drop, the `LINE` slot, `feed`,
`reset`, `peek`, construction, destruction) is embedded directly from
`src/lib.rs`.  libreadline itself is an external black box (its key
dispatch, its `rl_stuff_char` input buffer); those primitives are
modelled from the spec, each marked `Modelled from the spec:`.

State representation:
  * `readline_state` models the opaque snapshot captured by
    `rl_save_state` / re-installed by `rl_restore_state`: the line buffer
    contents (`rl_line_buffer` up to `rl_end`; `rl_end` is implicitly
    `line_buffer.length`, matching `peek`'s consistency assertion), the
    cursor `rl_point`, and an abstract size for `rl_undo_list`.
  * `Globals` models the process-wide mutable state: the live
    `readline_state` globals, libreadline's pending-input buffer fed by
    `rl_stuff_char` (which is *not* part of `readline_state`), the
    `LINE : Option CString` static written by `handle_line`, and the
    contents of the global `Mutex<Id>` (the id of the currently
    installed session).
  * `Readline` models a session: its unique `Id` and its owned snapshot.

Bytes are `Nat`; lines are `List Nat`.  Fatal conditions (Rust panics)
are `Except.error`, carrying the state after unwinding (guard `Drop`
still runs on unwind, so the error state has the guard released).
-/

namespace Rline

/-- The semantically relevant content of libreadline's `readline_state`
blob: line buffer (with `rl_end` implicit as its length), `rl_point`,
and the undo list abstracted to its length. -/
structure readline_state where
  line_buffer : List Nat
  point : Nat
  undo_list : Nat
deriving DecidableEq, Repr

/-- The template state cached by `Readline::initial`: captured right
after one-time setup, with an empty line buffer, cursor 0 and a null
(`= empty`) undo list. -/
def template : readline_state := ⟨[], 0, 0⟩

/-- The process-wide mutable state: the live libreadline globals, the
pending-input buffer of `rl_stuff_char` (not captured by
`rl_save_state`), the `LINE` slot filled by `handle_line`, and the id
stored in the global `Mutex<Id>` (which session's state is installed). -/
structure Globals where
  live : readline_state
  pending : List Nat
  line_slot : Option (List Nat)
  owner : Nat
deriving DecidableEq, Repr

/-- A session (`struct Readline`): its unique id and its owned snapshot. -/
structure Readline where
  id : Nat
  state : readline_state
deriving DecidableEq, Repr

/-- The globals at process start: live state equal to the template (the
one-time setup in `Readline::initial` runs before the first session is
constructed), empty pending input, empty `LINE` slot, and the mutex
initialized with a fresh sentinel id (`Mutex::new(Id::new())`), taken to
be 0; session ids are then always nonzero. -/
def initialGlobals : Globals := ⟨template, [], none, 0⟩

/-- Embeds `Readline::activate`: lock the global mutex; if the installed id
differs from this session's id, install this session's snapshot into the
live globals (`state.save()`) and record the new owner. -/
def activate (rl : Readline) (g : Globals) : Globals :=
  if g.owner ≠ rl.id then { g with live := rl.state, owner := rl.id } else g

/-- Embeds `Drop for ReadlineGuard`: before unlocking, read the live globals
back into the session's snapshot (`self.state.load()`). -/
def guardDrop (rl : Readline) (g : Globals) : Readline :=
  { rl with state := g.live }

/-- Modelled from the spec: capacity of libreadline's fixed internal
input buffer filled by `rl_stuff_char` ("said to hold 512 bytes, so any
slice of equal or greater size may cause a panic"): 511 usable slots. -/
def IBUFFER_CAP : Nat := 511

/-- Modelled from the spec: `rl_stuff_char` pushes one byte into the
pending-input buffer, failing (returning 0, `none` here) exactly when
no space is available. -/
def rl_stuff_char (g : Globals) (b : Nat) : Option Globals :=
  if g.pending.length < IBUFFER_CAP then
    some { g with pending := g.pending ++ [b] }
  else
    none

/-- The `for &b in key` loop of `feed_impl`: stuff every byte of the
key, panicking (`Except.error` with the partial state) on the first
failed `rl_stuff_char` (`assert_ne!(result, 0)`). -/
def stuffAll (g : Globals) : List Nat → Except Globals Globals
  | [] => .ok g
  | b :: bs =>
    match rl_stuff_char g b with
    | some g' => stuffAll g' bs
    | none => .error g

/-- Embeds `Readline::handle_line`: the line-completion callback. A null line
is replaced by the empty `CString`; otherwise the passed line is copied.
Either way the `LINE` slot ends up holding `some` value. -/
def Readline.handle_line (g : Globals) (line : Option (List Nat)) : Globals :=
  { g with line_slot := some (line.getD []) }

/-- Terminator bytes: newline / carriage return, both bound to
accept-line in the external library. -/
def isTerminator (b : Nat) : Bool := b == 10 || b == 13

/-- Insert a byte into a buffer at a given position. -/
def insertAt (l : List Nat) (i : Nat) (b : Nat) : List Nat :=
  l.take i ++ b :: l.drop i

/-- Modelled from the spec: the external library's processing of one
pending byte. A line-terminator byte completes the line: the completion
callback `Readline.handle_line` fires with the current buffer (filling
the `LINE` slot) and the live line state is reset for the next line.
Any other byte is self-inserted at the cursor, advancing the cursor and
growing the undo chain. (Key bindings beyond this are out of scope:
the spec treats the editing algorithms as a black box and specifies
exactly this terminator/insert behavior.) -/
def dispatchByte (g : Globals) (b : Nat) : Globals :=
  if isTerminator b then
    let g' := Readline.handle_line g (some g.live.line_buffer)
    { g' with live := ⟨[], 0, 0⟩ }
  else
    { g with
      live := ⟨insertAt g.live.line_buffer g.live.point b,
               g.live.point + 1, g.live.undo_list + 1⟩ }

/-- Modelled from the spec: `rl_callback_read_char` processes all
pushed pending input (its internal loop keeps dispatching while pushed
input is available and the input-available hook reports none from the
real streams). -/
def rl_callback_read_char (g : Globals) : Globals :=
  List.foldl dispatchByte { g with pending := [] } g.pending

/-- Embeds `Readline::feed` (`feed_impl`): empty input is an immediate no-op
returning `None`; otherwise activate, stuff every byte (panicking on
input-buffer overflow — the guard still drops during unwinding), let
the library process the pending input, then take the `LINE` slot; the
guard drops (re-capturing live state into the snapshot) on exit. -/
def Readline.feed (rl : Readline) (g : Globals) (key : List Nat) :
    Except (Readline × Globals) (Readline × Globals × Option (List Nat)) :=
  if key = [] then
    .ok (rl, g, none)
  else
    let g1 := activate rl g
    match stuffAll g1 key with
    | .error ge => .error (guardDrop rl ge, ge)
    | .ok g2 =>
      let g3 := rl_callback_read_char g2
      let result := g3.line_slot
      let g4 := { g3 with line_slot := none }
      .ok (guardDrop rl g4, g4, result)

/-- The final globals after a `feed` call, whether it returned normally
or panicked (unwound). -/
def Readline.feedG (rl : Readline) (g : Globals) (key : List Nat) : Globals :=
  match rl.feed g key with
  | .ok (_, g', _) => g'
  | .error (_, g') => g'

/-- Embeds `Readline::reset` (`reset_impl`): assert `cursor ≤ line.length`
*before* acquiring the guard (panic = `Except.error` with the state
untouched), then activate, `rl_replace_line` (replacing the buffer and,
when `clear_undo`, freeing the undo list) and set `rl_point`; the guard
drops on exit. -/
def Readline.reset (rl : Readline) (g : Globals) (line : List Nat) (cursor : Nat)
    (clear_undo : Bool) : Except (Readline × Globals) (Readline × Globals) :=
  if cursor ≤ line.length then
    let g1 := activate rl g
    let g2 := { g1 with
      live := ⟨line, cursor, if clear_undo then 0 else g1.live.undo_list⟩ }
    .ok (guardDrop rl g2, g2)
  else
    .error (rl, g)

/-- Embeds `Readline::peek`: activate, read the live buffer (`rl_line_buffer`
up to `rl_end`) and cursor (`rl_point`), hand them to the observer; the
guard drops on exit. Returns the post-call session and globals along
with the observation the closure receives. -/
def Readline.peek (rl : Readline) (g : Globals) :
    (Readline × Globals) × (List Nat × Nat) :=
  let g1 := activate rl g
  ((guardDrop rl g1, g1), (g1.live.line_buffer, g1.live.point))

/-- What a `peek` observer is shown: the in-progress line and cursor. -/
def peekObs (rl : Readline) (g : Globals) : List Nat × Nat :=
  (rl.peek g).2

/-- Embeds `Readline::new`: a fresh session starts from a clone of the
template, is activated, gets freshly `calloc`ed (zeroed, hence empty)
line/keyseq buffers installed into the live globals, re-loads the
snapshot from the globals and stores it back (`guard.state.load()` then
`guard.state.save()`); the guard drops on exit. `id` is the fresh
unique id handed out by the `uid` crate. -/
def Readline.new (id : Nat) (g : Globals) : Readline × Globals :=
  let rl : Readline := ⟨id, template⟩
  let g1 := activate rl g
  let g2 := { g1 with live := { g1.live with line_buffer := [] } }
  let rl2 : Readline := { rl with state := g2.live }
  let g3 := { g2 with live := rl2.state }
  (guardDrop rl2 g3, g3)

/-- Embeds `Drop for Readline`: activate (so the frees hit this session's
allocations), `rl_free_undo_list` and free the buffers; the guard drops
on exit (the snapshot read-back still happens before the memory is
released). -/
def Readline.drop (rl : Readline) (g : Globals) : Readline × Globals :=
  let g1 := activate rl g
  let g2 := { g1 with live := { g1.live with undo_list := 0 } }
  (guardDrop rl g2, g2)

/-- Feed a list of bytes one `feed` call per byte, requiring every call
to return normally with no completed line; `none` if any call completes
a line or panics. -/
def feedAllNone (rl : Readline) (g : Globals) : List Nat → Option (Readline × Globals)
  | [] => some (rl, g)
  | c :: cs =>
    match rl.feed g [c] with
    | .ok (rl', g', none) => feedAllNone rl' g' cs
    | _ => none

/-- Collapse either outcome of a fallible global-state transition to the
resulting globals (on `error`, the state after unwinding). -/
def postG : Except Globals Globals → Globals
  | .ok g => g
  | .error g => g

/-! ### Frame lemmas about the individual transitions -/

theorem activate_owner (rl : Readline) (g : Globals) : (activate rl g).owner = rl.id := by
  unfold activate
  split
  · rfl
  · next h => exact (not_not.mp h).symm ▸ rfl

theorem activate_pending (rl : Readline) (g : Globals) :
    (activate rl g).pending = g.pending := by
  unfold activate
  split <;> rfl

theorem activate_line_slot (rl : Readline) (g : Globals) :
    (activate rl g).line_slot = g.line_slot := by
  unfold activate
  split <;> rfl

theorem stuffAll_frame (key : List Nat) : ∀ g : Globals,
    (postG (stuffAll g key)).owner = g.owner ∧
    (postG (stuffAll g key)).live = g.live ∧
    (postG (stuffAll g key)).line_slot = g.line_slot := by
  induction key with
  | nil => exact fun g => ⟨rfl, rfl, rfl⟩
  | cons b bs ih =>
    intro g
    by_cases hc : g.pending.length < IBUFFER_CAP
    · have h1 : stuffAll g (b :: bs) = stuffAll { g with pending := g.pending ++ [b] } bs := by
        conv_lhs => unfold stuffAll rl_stuff_char
        rw [if_pos hc]
      rw [h1]
      exact ih _
    · have h1 : stuffAll g (b :: bs) = .error g := by
        conv_lhs => unfold stuffAll rl_stuff_char
        rw [if_neg hc]
      rw [h1]
      exact ⟨rfl, rfl, rfl⟩

theorem dispatchByte_owner (g : Globals) (b : Nat) : (dispatchByte g b).owner = g.owner := by
  unfold dispatchByte Readline.handle_line
  split <;> rfl

theorem foldl_dispatchByte_owner (l : List Nat) :
    ∀ g : Globals, (List.foldl dispatchByte g l).owner = g.owner := by
  induction l with
  | nil => exact fun g => rfl
  | cons b bs ih =>
    intro g
    rw [List.foldl_cons, ih, dispatchByte_owner]

theorem rl_callback_read_char_owner (g : Globals) :
    (rl_callback_read_char g).owner = g.owner := by
  unfold rl_callback_read_char
  rw [foldl_dispatchByte_owner]

theorem feedG_owner (rl : Readline) (g : Globals) (key : List Nat) (hk : key ≠ []) :
    (rl.feedG g key).owner = rl.id := by
  unfold Readline.feedG Readline.feed
  rw [if_neg hk]
  cases h : stuffAll (activate rl g) key with
  | error ge =>
    simp only [h]
    have hf := (stuffAll_frame key (activate rl g)).1
    rw [h] at hf
    simp only [postG] at hf
    rw [hf, activate_owner]
  | ok g2 =>
    simp only [h]
    have hf := (stuffAll_frame key (activate rl g)).1
    rw [h] at hf
    simp only [postG] at hf
    rw [rl_callback_read_char_owner, hf, activate_owner]

theorem peekObs_of_ne (rl : Readline) (g : Globals) (h : g.owner ≠ rl.id) :
    peekObs rl g = (rl.state.line_buffer, rl.state.point) := by
  unfold peekObs Readline.peek activate
  rw [if_pos h]

theorem peekObs_of_eq (rl : Readline) (g : Globals) (h : g.owner = rl.id) :
    peekObs rl g = (g.live.line_buffer, g.live.point) := by
  unfold peekObs Readline.peek activate
  rw [if_neg (not_not_intro h)]

theorem peekObs_guardDrop (rl : Readline) (g : Globals) (h : g.owner = rl.id) :
    peekObs (guardDrop rl g) g = (g.live.line_buffer, g.live.point) :=
  peekObs_of_eq (guardDrop rl g) g h

/-! ### Step lemmas for `feed` from a quiescent session -/

theorem feed_single_nonterm (id b : Nat) (st : readline_state)
    (hb : isTerminator b = false) :
    Readline.feed ⟨id, st⟩ ⟨st, [], none, id⟩ [b] =
      .ok (⟨id, ⟨insertAt st.line_buffer st.point b, st.point + 1, st.undo_list + 1⟩⟩,
           ⟨⟨insertAt st.line_buffer st.point b, st.point + 1, st.undo_list + 1⟩, [], none, id⟩,
           none) := by
  simp [Readline.feed, activate, stuffAll, rl_stuff_char, rl_callback_read_char, dispatchByte,
        Readline.handle_line, guardDrop, IBUFFER_CAP, hb]

theorem feed_terminator (id : Nat) (st : readline_state) :
    Readline.feed ⟨id, st⟩ ⟨st, [], none, id⟩ [10] =
      .ok (⟨id, ⟨[], 0, 0⟩⟩, ⟨⟨[], 0, 0⟩, [], none, id⟩, some st.line_buffer) := by
  simp [Readline.feed, activate, stuffAll, rl_stuff_char, rl_callback_read_char, dispatchByte,
        Readline.handle_line, isTerminator, guardDrop, IBUFFER_CAP]

theorem insertAt_length (l : List Nat) (b : Nat) : insertAt l l.length b = l ++ [b] := by
  simp [insertAt]

theorem feedAllNone_append (id : Nat) (cs : List Nat) :
    ∀ (buf : List Nat) (u : Nat), (∀ c ∈ cs, isTerminator c = false) →
    feedAllNone ⟨id, ⟨buf, buf.length, u⟩⟩ ⟨⟨buf, buf.length, u⟩, [], none, id⟩ cs =
      some (⟨id, ⟨buf ++ cs, (buf ++ cs).length, u + cs.length⟩⟩,
            ⟨⟨buf ++ cs, (buf ++ cs).length, u + cs.length⟩, [], none, id⟩) := by
  induction cs with
  | nil => intro buf u _; simp [feedAllNone]
  | cons c cs ih =>
    intro buf u h
    have hc : isTerminator c = false := h c (List.mem_cons_self c cs)
    have hrest : ∀ c' ∈ cs, isTerminator c' = false :=
      fun c' hc' => h c' (List.mem_cons_of_mem _ hc')
    unfold feedAllNone
    rw [feed_single_nonterm id c ⟨buf, buf.length, u⟩ hc]
    simp only [insertAt_length]
    have hlen : buf.length + 1 = (buf ++ [c]).length := by simp
    rw [hlen]
    rw [ih (buf ++ [c]) (u + 1) hrest]
    simp [List.append_assoc]
    omega

/-! ### Capacity lemmas for the pending-input buffer -/

theorem stuffAll_ok_of_le (key : List Nat) : ∀ g : Globals,
    g.pending.length + key.length ≤ IBUFFER_CAP →
    stuffAll g key = .ok { g with pending := g.pending ++ key } := by
  induction key with
  | nil => intro g _; simp [stuffAll]
  | cons b bs ih =>
    intro g h
    have hc : g.pending.length < IBUFFER_CAP := by
      simp only [List.length_cons] at h
      omega
    have h1 : stuffAll g (b :: bs) = stuffAll { g with pending := g.pending ++ [b] } bs := by
      conv_lhs => unfold stuffAll rl_stuff_char
      rw [if_pos hc]
    rw [h1, ih _ (by simp only [List.length_append, List.length_singleton]; simp at h; omega)]
    simp

theorem stuffAll_error_of_gt (key : List Nat) : ∀ g : Globals,
    g.pending.length ≤ IBUFFER_CAP → IBUFFER_CAP < g.pending.length + key.length →
    ∃ ge, stuffAll g key = .error ge := by
  induction key with
  | nil =>
    intro g hle hgt
    simp only [List.length_nil, Nat.add_zero] at hgt
    omega
  | cons b bs ih =>
    intro g hle hgt
    by_cases hc : g.pending.length < IBUFFER_CAP
    · have h1 : stuffAll g (b :: bs) = stuffAll { g with pending := g.pending ++ [b] } bs := by
        conv_lhs => unfold stuffAll rl_stuff_char
        rw [if_pos hc]
      rw [h1]
      exact ih _ (by simp; omega) (by simp at hgt ⊢; omega)
    · have h1 : stuffAll g (b :: bs) = .error g := by
        conv_lhs => unfold stuffAll rl_stuff_char
        rw [if_neg hc]
      exact ⟨g, h1⟩

/-! ### Claim theorems -/

/-- C1: session isolation. For two sessions `A ≠ B` (distinct ids, with the
standing invariant that if `B` is the installed occupant then the live state
agrees with its snapshot), feeding any byte sequence into `A` — whether the
feed returns normally or dies on the overflow panic — never changes the
line content and cursor position that `peek`/`inspect` reports for `B`. -/
theorem session_isolation (A B : Readline) (g : Globals) (key : List Nat)
    (hne : A.id ≠ B.id) (hinv : g.owner = B.id → g.live = B.state) :
    peekObs B (A.feedG g key) = peekObs B g := by
  by_cases hk : key = []
  · subst hk
    simp [Readline.feedG, Readline.feed]
  · rw [peekObs_of_ne B _ (by rw [feedG_owner A g key hk]; exact fun hab => hne (hab.trans rfl))]
    by_cases hB : g.owner = B.id
    · rw [peekObs_of_eq B g hB, hinv hB]
    · rw [peekObs_of_ne B g hB]

/-- Witness for C1 at concrete sessions and input. -/
theorem session_isolation_witness :
    ((1 : Nat) ≠ 2) ∧
    ((initialGlobals.owner = 2 → initialGlobals.live = readline_state.mk [98] 1 0) →
      peekObs ⟨2, ⟨[98], 1, 0⟩⟩ (Readline.feedG ⟨1, template⟩ initialGlobals [97]) =
        peekObs ⟨2, ⟨[98], 1, 0⟩⟩ initialGlobals) :=
  ⟨by decide,
   fun h => session_isolation ⟨1, template⟩ ⟨2, ⟨[98], 1, 0⟩⟩ initialGlobals [97] (by decide) h⟩

/-- C2: re-capture on every release. For every public operation (`feed`,
`reset`, `peek`, construction, destruction) and every exit path of it that
released the gate — normal return or failure-triggered unwind — the live
global state has been captured back into the snapshot of the session that
held the gate (the returned session's snapshot equals the returned live
state); `reset`'s precondition failure fires before the gate is acquired
and leaves everything untouched. -/
theorem recapture_on_release (rl : Readline) (g : Globals) (key line : List Nat)
    (cursor : Nat) (cu : Bool) (n : Nat) :
    (key ≠ [] →
      (match rl.feed g key with
       | .ok (rl', g', _) => rl'.state = g'.live
       | .error (rl', g') => rl'.state = g'.live)) ∧
    (match rl.reset g line cursor cu with
     | .ok (rl', g') => rl'.state = g'.live
     | .error p => p = (rl, g)) ∧
    (rl.peek g).1.1.state = (rl.peek g).1.2.live ∧
    (Readline.new n g).1.state = (Readline.new n g).2.live ∧
    (rl.drop g).1.state = (rl.drop g).2.live := by
  refine ⟨?_, ?_, rfl, rfl, rfl⟩
  · intro hk
    unfold Readline.feed
    rw [if_neg hk]
    cases h : stuffAll (activate rl g) key with
    | error ge =>
      simp only [h]
      rfl
    | ok g2 =>
      simp only [h]
      rfl
  · by_cases hcur : cursor ≤ line.length
    · have heq : rl.reset g line cursor cu =
          .ok (guardDrop rl
            ⟨⟨line, cursor, if cu then 0 else (activate rl g).live.undo_list⟩,
             (activate rl g).pending, (activate rl g).line_slot, (activate rl g).owner⟩,
            ⟨⟨line, cursor, if cu then 0 else (activate rl g).live.undo_list⟩,
             (activate rl g).pending, (activate rl g).line_slot, (activate rl g).owner⟩) := by
        unfold Readline.reset
        rw [if_pos hcur]
      simp only [heq]
      rfl
    · have heq : rl.reset g line cursor cu = .error (rl, g) := by
        unfold Readline.reset
        rw [if_neg hcur]
      simp only [heq]

/-- Witness for C2 at concrete inputs, discharging the nonempty-key
hypothesis of the `feed` conjunct. -/
theorem recapture_on_release_witness :
    (([97] : List Nat) ≠ []) ∧
    (match Readline.feed ⟨1, template⟩ initialGlobals [97] with
     | .ok (rl', g', _) => rl'.state = g'.live
     | .error (rl', g') => rl'.state = g'.live) :=
  ⟨by decide,
   (recapture_on_release ⟨1, template⟩ initialGlobals [97] [] 0 true 2).1 (by decide)⟩

/-- C3: line completion semantics of `feed`. On a freshly constructed
session, feeding non-terminator bytes `c1, …, cn` one key at a time, each
feed returning nothing, and then feeding the line-terminator key yields
exactly one completed line equal to the concatenation `c1…cn`; with `n = 0`
(terminator alone on a fresh session) the completed line is empty. -/
theorem feed_line_completion (cs : List Nat) (h : ∀ c ∈ cs, isTerminator c = false) :
    feedAllNone (Readline.new 1 initialGlobals).1 (Readline.new 1 initialGlobals).2 cs =
      some (⟨1, ⟨cs, cs.length, cs.length⟩⟩, ⟨⟨cs, cs.length, cs.length⟩, [], none, 1⟩) ∧
    Readline.feed ⟨1, ⟨cs, cs.length, cs.length⟩⟩ ⟨⟨cs, cs.length, cs.length⟩, [], none, 1⟩ [10] =
      .ok (⟨1, ⟨[], 0, 0⟩⟩, ⟨⟨[], 0, 0⟩, [], none, 1⟩, some cs) := by
  constructor
  · have hstep := feedAllNone_append 1 cs [] 0 h
    simpa using hstep
  · exact feed_terminator 1 ⟨cs, cs.length, cs.length⟩

/-- Witness for C3 with the concrete non-terminator bytes `"ab"`. -/
theorem feed_line_completion_witness :
    (∀ c ∈ ([97, 98] : List Nat), isTerminator c = false) ∧
    (feedAllNone (Readline.new 1 initialGlobals).1 (Readline.new 1 initialGlobals).2 [97, 98] =
      some (⟨1, ⟨[97, 98], 2, 2⟩⟩, ⟨⟨[97, 98], 2, 2⟩, [], none, 1⟩) ∧
    Readline.feed ⟨1, ⟨[97, 98], 2, 2⟩⟩ ⟨⟨[97, 98], 2, 2⟩, [], none, 1⟩ [10] =
      .ok (⟨1, ⟨[], 0, 0⟩⟩, ⟨⟨[], 0, 0⟩, [], none, 1⟩, some [97, 98])) :=
  ⟨by decide, feed_line_completion [97, 98] (by decide)⟩

/-- C4: postcondition of `reset`. For any session, line and
`cursor ≤ line.length`, `reset` succeeds and a subsequent `peek` reports
exactly that line and cursor; concretely, on a fresh session
`reset "abc" 1 true` then `feed "x"` yields in-progress content `"axbc"`
with cursor 2, and completing the line yields `"axbc"`. -/
theorem reset_postcondition (rl : Readline) (g : Globals) (line : List Nat)
    (cursor : Nat) (cu : Bool) (h : cursor ≤ line.length) :
    (∃ rl' g', rl.reset g line cursor cu = .ok (rl', g') ∧ peekObs rl' g' = (line, cursor)) ∧
    (∃ r1 g1 r2 g2 r3 g3,
      Readline.reset (Readline.new 1 initialGlobals).1 (Readline.new 1 initialGlobals).2
          [97, 98, 99] 1 true = .ok (r1, g1) ∧
      r1.feed g1 [120] = .ok (r2, g2, none) ∧
      peekObs r2 g2 = ([97, 120, 98, 99], 2) ∧
      r2.feed g2 [10] = .ok (r3, g3, some [97, 120, 98, 99])) := by
  constructor
  · unfold Readline.reset
    rw [if_pos h]
    refine ⟨_, _, rfl, ?_⟩
    have hobs := peekObs_guardDrop rl
      ⟨⟨line, cursor, if cu then 0 else (activate rl g).live.undo_list⟩,
       (activate rl g).pending, (activate rl g).line_slot, (activate rl g).owner⟩
      (activate_owner rl g)
    rw [hobs]
  · exact ⟨_, _, _, _, _, _, rfl, rfl, rfl, rfl⟩

/-- Witness for C4 with `cursor = 1 ≤ 3`. -/
theorem reset_postcondition_witness :
    (1 ≤ ([97, 98, 99] : List Nat).length) ∧
    (∃ rl' g', Readline.reset ⟨1, template⟩ initialGlobals [97, 98, 99] 1 true = .ok (rl', g') ∧
      peekObs rl' g' = ([97, 98, 99], 1)) :=
  ⟨by decide,
   (reset_postcondition ⟨1, template⟩ initialGlobals [97, 98, 99] 1 true (by decide)).1⟩

/-- C5: precondition failure of `reset`. Whenever `cursor` exceeds the
length of the given line, `reset` fails fast (panic before touching any
state) rather than returning a recoverable error; for
`cursor ≤ line.length` it never fails; in particular `reset "abc" 4 true`
on a fresh session fails fast. -/
theorem reset_cursor_precondition (rl : Readline) (g : Globals) (line : List Nat)
    (cursor : Nat) (cu : Bool) :
    (line.length < cursor → rl.reset g line cursor cu = .error (rl, g)) ∧
    (cursor ≤ line.length → ∃ rl' g', rl.reset g line cursor cu = .ok (rl', g')) ∧
    Readline.reset (Readline.new 1 initialGlobals).1 (Readline.new 1 initialGlobals).2
        [97, 98, 99] 4 true =
      .error ((Readline.new 1 initialGlobals).1, (Readline.new 1 initialGlobals).2) := by
  refine ⟨?_, ?_, rfl⟩
  · intro hlt
    unfold Readline.reset
    rw [if_neg (by omega)]
  · intro hle
    unfold Readline.reset
    rw [if_pos hle]
    exact ⟨_, _, rfl⟩

/-- Witness for C5 (the conjuncts carry their own hypotheses, discharged
at a concrete overlong cursor and a concrete valid cursor). -/
theorem reset_cursor_precondition_witness :
    (([97] : List Nat).length < 2) ∧
    (Readline.reset ⟨1, template⟩ initialGlobals [97] 2 true = .error (⟨1, template⟩, initialGlobals)) ∧
    ((1 : Nat) ≤ ([97] : List Nat).length) ∧
    (∃ rl' g', Readline.reset ⟨1, template⟩ initialGlobals [97] 1 true = .ok (rl', g')) :=
  ⟨by decide,
   (reset_cursor_precondition ⟨1, template⟩ initialGlobals [97] 2 true).1 (by decide),
   by decide,
   (reset_cursor_precondition ⟨1, template⟩ initialGlobals [97] 1 true).2.1 (by decide)⟩

/-- C6: empty feed is a no-op. In every state, `feed` of the empty byte
sequence returns normally (not an error) with no completed line and leaves
the session and all global state — hence cursor and buffer content as
reported by `peek` — exactly unchanged. -/
theorem feed_empty_noop (rl : Readline) (g : Globals) :
    rl.feed g [] = .ok (rl, g, none) := by
  unfold Readline.feed
  rw [if_pos rfl]

/-- C7: null completion normalization. The line-completion callback
normalizes a null completion to an empty completed line (the slot is
filled with `some []`, never left as `none`), so a feed that presses the
terminator on an empty fresh line returns an empty completed line, while a
feed of a non-terminator byte returns no value at all. -/
theorem null_completion_normalized (g : Globals) (b : Nat) (hb : isTerminator b = false) :
    (Readline.handle_line g none).line_slot = some [] ∧
    (∀ l : List Nat, (Readline.handle_line g (some l)).line_slot = some l) ∧
    Readline.feed (Readline.new 1 initialGlobals).1 (Readline.new 1 initialGlobals).2 [10] =
      .ok (⟨1, ⟨[], 0, 0⟩⟩, ⟨⟨[], 0, 0⟩, [], none, 1⟩, some []) ∧
    (∃ r g', Readline.feed (Readline.new 1 initialGlobals).1 (Readline.new 1 initialGlobals).2 [b] =
      .ok (r, g', none)) := by
  have hnew : Readline.new 1 initialGlobals = (⟨1, template⟩, ⟨template, [], none, 1⟩) := rfl
  rw [hnew]
  exact ⟨rfl, fun l => rfl, rfl, _, _, feed_single_nonterm 1 b template hb⟩

/-- Witness for C7 at the non-terminator byte `97`. -/
theorem null_completion_normalized_witness :
    (isTerminator 97 = false) ∧
    ((Readline.handle_line initialGlobals none).line_slot = some [] ∧
     (∀ l : List Nat, (Readline.handle_line initialGlobals (some l)).line_slot = some l) ∧
     Readline.feed (Readline.new 1 initialGlobals).1 (Readline.new 1 initialGlobals).2 [10] =
       .ok (⟨1, ⟨[], 0, 0⟩⟩, ⟨⟨[], 0, 0⟩, [], none, 1⟩, some []) ∧
     (∃ r g', Readline.feed (Readline.new 1 initialGlobals).1 (Readline.new 1 initialGlobals).2 [97] =
       .ok (r, g', none))) :=
  ⟨by decide, null_completion_normalized initialGlobals 97 (by decide)⟩

/-- C8: in-progress accumulation. On a fresh session, feeding the single
printable bytes `a`, `b`, `c` in turn completes no line, and `peek` then
reports content `"abc"` with cursor position 3. -/
theorem in_progress_accumulation :
    ∃ r1 g1 r2 g2 r3 g3,
      Readline.feed (Readline.new 1 initialGlobals).1 (Readline.new 1 initialGlobals).2 [97] =
        .ok (r1, g1, none) ∧
      r1.feed g1 [98] = .ok (r2, g2, none) ∧
      r2.feed g2 [99] = .ok (r3, g3, none) ∧
      peekObs r3 g3 = ([97, 98, 99], 3) :=
  ⟨_, _, _, _, _, _, rfl, rfl, rfl, rfl⟩

/-- C9: input-buffer overflow is fatal. From a quiescent state (empty
pending-input buffer), a `feed` whose key exceeds the fixed capacity of
the library's internal input buffer panics (an unrecoverable `error`,
never a recoverable result), while any `feed` within that capacity never
reaches the overflow branch and returns normally. -/
theorem input_overflow_fatal (rl : Readline) (g : Globals) (key : List Nat)
    (hp : g.pending = []) :
    (IBUFFER_CAP < key.length → ∃ p, rl.feed g key = .error p) ∧
    (key.length ≤ IBUFFER_CAP → ∃ q, rl.feed g key = .ok q) := by
  have hp1 : (activate rl g).pending = [] := by rw [activate_pending, hp]
  constructor
  · intro hg
    have hk : key ≠ [] := by
      intro hnil
      rw [hnil] at hg
      simp [IBUFFER_CAP] at hg
    obtain ⟨ge, hge⟩ := stuffAll_error_of_gt key (activate rl g)
      (by rw [hp1]; simp) (by rw [hp1]; simpa using hg)
    refine ⟨(guardDrop rl ge, ge), ?_⟩
    unfold Readline.feed
    rw [if_neg hk]
    simp only [hge]
  · intro hle
    by_cases hk : key = []
    · subst hk
      exact ⟨(rl, g, none), feed_empty_noop rl g⟩
    · have hok := stuffAll_ok_of_le key (activate rl g) (by rw [hp1]; simpa using hle)
      unfold Readline.feed
      rw [if_neg hk]
      simp only [hok]
      exact ⟨_, rfl⟩

/-- Witness for C9: a 600-byte key overflows, a 3-byte key does not. -/
theorem input_overflow_fatal_witness :
    (initialGlobals.pending = []) ∧
    (IBUFFER_CAP < (List.replicate 600 97).length) ∧
    (∃ p, Readline.feed ⟨1, template⟩ initialGlobals (List.replicate 600 97) = .error p) ∧
    (([97, 98, 99] : List Nat).length ≤ IBUFFER_CAP) ∧
    (∃ q, Readline.feed ⟨1, template⟩ initialGlobals [97, 98, 99] = .ok q) :=
  ⟨rfl,
   by rw [List.length_replicate]; decide,
   (input_overflow_fatal ⟨1, template⟩ initialGlobals (List.replicate 600 97) rfl).1
     (by rw [List.length_replicate]; decide),
   by decide,
   (input_overflow_fatal ⟨1, template⟩ initialGlobals [97, 98, 99] rfl).2
     (by decide)⟩

/-- C10: the completed-line slot is drained by `feed`. Starting from any
state in which the process-wide completed-line slot is empty (the resting
invariant), after any `feed` call — returning normally or unwinding — the
slot again holds no value: `feed` read-and-clears it, so a completed line
is returned exactly once and no later feed can return a stale line. -/
theorem slot_drained_by_feed (rl : Readline) (g : Globals) (key : List Nat)
    (h : g.line_slot = none) :
    (rl.feedG g key).line_slot = none := by
  by_cases hk : key = []
  · subst hk
    simpa [Readline.feedG, Readline.feed] using h
  · unfold Readline.feedG Readline.feed
    rw [if_neg hk]
    cases he : stuffAll (activate rl g) key with
    | error ge =>
      simp only [he]
      have hf := (stuffAll_frame key (activate rl g)).2.2
      rw [he] at hf
      simp only [postG] at hf
      rw [hf, activate_line_slot, h]
    | ok g2 => simp only [he]

/-- Witness for C10 at a concrete state with an empty slot. -/
theorem slot_drained_by_feed_witness :
    (initialGlobals.line_slot = none) ∧
    (Readline.feedG ⟨1, template⟩ initialGlobals [97, 10]).line_slot = none :=
  ⟨rfl, slot_drained_by_feed ⟨1, template⟩ initialGlobals [97, 10] rfl⟩

end Rline
